import Mathlib

/-!
Verification of the tour-assembly pipeline of the roami repository.

The embedding follows the useTourGuide React hook: the data model
(GeoPoint, Attraction, ArchivalPhoto, POI, TourStop, Tour), the session
state held by the hook (isLoading, error, currentLocation, currentTour,
currentStopIndex), the startTour pipeline, the goToNextStop and
getCurrentStop operations, and the haversine helper calculateDistance.

JavaScript numbers are modelled as real numbers; the cursor index, which
the code manipulates with Math.min over possibly negative values, is
modelled as an integer.  Network calls (geolocation, the nearby-attraction
fetch, the per-stop photo fetch and AI fetch) are modelled as Except
values supplied as oracles: an .error value stands for a rejected promise
carrying the message the catch handler would store, an .ok value for a
fulfilled one.  Promise.all over the mapped attraction list is modelled by
collecting the per-attraction results in input order, failing when any
sub-result failed.
-/

namespace Roami

/-- Location point from the firebase types module: latitude, longitude,
timestamp.  The timestamp (a Date in the source) is modelled as a natural
number; it is never inspected by the pipeline. -/
structure GeoPoint where
  latitude : ℝ
  longitude : ℝ
  timestamp : Nat

/-- Coordinate pair carried by a discovered attraction payload. -/
structure Coordinates where
  latitude : ℝ
  longitude : ℝ

/-- One element of the JSON list returned by the nearby-attraction
endpoint, with the fields the hook reads: id, name, coordinates, and the
optional additional_info.description. -/
structure Attraction where
  id : String
  name : String
  coordinates : Coordinates
  additional_info_description : Option String

/-- One element of the JSON list returned by the historical-photo
endpoint: url, title, optional year and description. -/
structure ArchivalPhoto where
  url : String
  title : String
  year : Option Nat
  description : Option String

/-- Place of interest as stored in a tour stop, with the fields the hook
populates: id, name, location, type, description, photos. -/
structure POI where
  id : String
  name : String
  location : GeoPoint
  type : String
  description : Option String
  photos : List String

/-- A stop of a tour: the POI, its historical photos, and the description
text obtained from the AI endpoint. -/
structure TourStop where
  poi : POI
  historicalPhotos : List ArchivalPhoto
  description : String

/-- A tour: the ordered stops, the total walking distance in meters, and
the estimated duration in minutes. -/
structure Tour where
  stops : List TourStop
  totalDistance : ℝ
  estimatedDuration : ℝ

/-- The state held by the useTourGuide hook. -/
structure Session where
  isLoading : Bool
  error : Option String
  currentLocation : Option GeoPoint
  currentTour : Option Tour
  currentStopIndex : ℤ

noncomputable instance : Inhabited Coordinates := ⟨⟨0, 0⟩⟩

noncomputable instance : Inhabited GeoPoint := ⟨⟨0, 0, 0⟩⟩

noncomputable instance : Inhabited Attraction := ⟨⟨"", "", default, none⟩⟩

noncomputable instance : Inhabited POI := ⟨⟨"", "", default, "", none, []⟩⟩

noncomputable instance : Inhabited TourStop := ⟨⟨default, [], ""⟩⟩

/-- The initial state of the hook: not loading, no error, no location, no
tour, stop index 0. -/
def initialSession : Session :=
  { isLoading := false
    error := none
    currentLocation := none
    currentTour := none
    currentStopIndex := 0 }

/-- JavaScript Math.atan2 on real arguments (signed zeros and NaN
excluded). -/
noncomputable def atan2 (y x : ℝ) : ℝ :=
  if 0 < x then Real.arctan (y / x)
  else if x < 0 then
    (if 0 ≤ y then Real.arctan (y / x) + Real.pi else Real.arctan (y / x) - Real.pi)
  else
    (if 0 < y then Real.pi / 2 else if y < 0 then -(Real.pi / 2) else 0)

/-- The haversine helper at the bottom of the hook file: Earth radius
6371000 m, angles converted from degrees to radians. -/
noncomputable def calculateDistance (lat1 lon1 lat2 lon2 : ℝ) : ℝ :=
  let R : ℝ := 6371000
  let phi1 := lat1 * Real.pi / 180
  let phi2 := lat2 * Real.pi / 180
  let dphi := (lat2 - lat1) * Real.pi / 180
  let dlam := (lon2 - lon1) * Real.pi / 180
  let a := Real.sin (dphi / 2) * Real.sin (dphi / 2) +
    Real.cos phi1 * Real.cos phi2 * Real.sin (dlam / 2) * Real.sin (dlam / 2)
  let c := 2 * atan2 (Real.sqrt a) (Real.sqrt (1 - a))
  R * c

/-- The fixed fallback text used when the AI response has no content. -/
def fallbackDescription : String := "No description available."

/-- The expression aiData.content or-else fallback: a missing or empty
content string is falsy in JavaScript and is replaced by the fallback. -/
def narrativeFrom : Option String → String
  | none => fallbackDescription
  | some s => if s = "" then fallbackDescription else s

/-- The POI record the enrichment callback builds from one attraction and
its fetched photos (type is the fixed string "attraction", photos are the
photo urls).  The stop GeoPoint timestamp, new Date() in the source, is
modelled as 0. -/
def mkPoi (attraction : Attraction) (photos : List ArchivalPhoto) : POI :=
  { id := attraction.id
    name := attraction.name
    location :=
      { latitude := attraction.coordinates.latitude
        longitude := attraction.coordinates.longitude
        timestamp := 0 }
    type := "attraction"
    description := attraction.additional_info_description
    photos := photos.map (fun p => p.url) }

/-- The async callback of the Promise.all map for one attraction: await
the historical-photo fetch, then await the AI fetch, then build the stop.
A rejection of either awaited call rejects the whole callback; there is no
catch inside it. -/
def enrichStop (attraction : Attraction)
    (photosResult : Except String (List ArchivalPhoto))
    (aiResult : Except String (Option String)) : Except String TourStop := do
  let photos ← photosResult
  let aiContent ← aiResult
  pure
    { poi := mkPoi attraction photos
      historicalPhotos := photos
      description := narrativeFrom aiContent }

/-- The stop record produced when both sub-calls of one enrichment
succeed. -/
def enrichedStop (attraction : Attraction) (photos : List ArchivalPhoto)
    (aiContent : Option String) : TourStop :=
  { poi := mkPoi attraction photos
    historicalPhotos := photos
    description := narrativeFrom aiContent }

/-- Promise.all over a list of already-started promises: succeed with the
results in input order when all succeed, reject when any rejects. -/
def collectStops : List (Except String TourStop) → Except String (List TourStop)
  | [] => .ok []
  | r :: rest => do
    let stop ← r
    let stops ← collectStops rest
    pure (stop :: stops)

/-- Lines 73-120 of the hook: map the enrichment callback over
attractions.slice(0, 5) and await the resulting Promise.all. -/
def buildStops (attractions : List Attraction)
    (photosOf : Attraction → Except String (List ArchivalPhoto))
    (aiOf : Attraction → Except String (Option String)) :
    Except String (List TourStop) :=
  collectStops ((attractions.take 5).map
    (fun attraction => enrichStop attraction (photosOf attraction) (aiOf attraction)))

/-- The callback of the totalDistance reduce: the accumulator pairs the
running sum with the element index; index 0 returns 0, any later index
adds the distance from the previous stop (looked up in the stops list) to
the current stop. -/
noncomputable def distStep (stops : List TourStop) (acc : ℝ × Nat)
    (stop : TourStop) : ℝ × Nat :=
  ( if acc.2 = 0 then 0
    else
      acc.1 +
        calculateDistance (stops.getD (acc.2 - 1) default).poi.location.latitude
          (stops.getD (acc.2 - 1) default).poi.location.longitude
          stop.poi.location.latitude stop.poi.location.longitude,
    acc.2 + 1)

/-- Lines 123-133 of the hook: stops.reduce with initial accumulator 0,
indexed as in Array.prototype.reduce. -/
noncomputable def totalDistance (stops : List TourStop) : ℝ :=
  (stops.foldl (distStep stops) ((0 : ℝ), (0 : Nat))).1

/-- The startTour pipeline.  The geolocation read, the nearby-attraction
fetch (as a function of the acquired location) and the two per-attraction
fetches are oracle parameters; every other step follows the source: set
loading and clear the error, acquire the position (storing it on success),
fetch the attractions, enrich the first five concurrently, compute the
distance and duration, install the new tour and reset the index to 0.
Any rejection lands in the catch block, which stores the message and
leaves tour and index untouched; finally clears the loading flag. -/
noncomputable def startTour (s : Session)
    (position : Except String GeoPoint)
    (fetchNearby : GeoPoint → Except String (List Attraction))
    (photosOf : Attraction → Except String (List ArchivalPhoto))
    (aiOf : Attraction → Except String (Option String)) : Session :=
  let s1 : Session := { s with isLoading := true, error := none }
  match position with
  | .error e => { s1 with isLoading := false, error := some e }
  | .ok location =>
    let s2 : Session := { s1 with currentLocation := some location }
    match fetchNearby location with
    | .error e => { s2 with isLoading := false, error := some e }
    | .ok attractions =>
      match buildStops attractions photosOf aiOf with
      | .error e => { s2 with isLoading := false, error := some e }
      | .ok stops =>
        let td := totalDistance stops
        let ed := (td / 5000) * 60 + ((stops.length : ℝ) * 20)
        { s2 with
            currentTour := some { stops := stops, totalDistance := td, estimatedDuration := ed }
            currentStopIndex := 0
            isLoading := false }

/-- Lines 153-156 of the hook: do nothing when no tour exists, otherwise
set the index to Math.min(index + 1, stops.length - 1). -/
def goToNextStop (s : Session) : Session :=
  match s.currentTour with
  | none => s
  | some currentTour =>
    { s with
        currentStopIndex :=
          min (s.currentStopIndex + 1) ((currentTour.stops.length : ℤ) - 1) }

/-- Lines 158-161 of the hook: null when no tour exists, otherwise the
array access stops[currentStopIndex] (undefined, hence none, when the
index is out of range). -/
def getCurrentStop (s : Session) : Option TourStop :=
  match s.currentTour with
  | none => none
  | some currentTour =>
    if s.currentStopIndex < 0 then none
    else currentTour.stops[s.currentStopIndex.toNat]?

/-- Session states reachable from the initial hook state by any sequence
of startTour calls (with arbitrary oracle outcomes) and goToNextStop
calls. -/
inductive Reachable : Session → Prop
  | init : Reachable initialSession
  | tour (s : Session) (position : Except String GeoPoint)
      (fetchNearby : GeoPoint → Except String (List Attraction))
      (photosOf : Attraction → Except String (List ArchivalPhoto))
      (aiOf : Attraction → Except String (Option String)) :
      Reachable s → Reachable (startTour s position fetchNearby photosOf aiOf)
  | next (s : Session) : Reachable s → Reachable (goToNextStop s)

/-- The cursor invariant that actually holds of a tour option and an
index: with no tour the index is 0; with an empty tour it is 0 or -1;
with a nonempty tour it lies in [0, length). -/
def cursorInv : Option Tour → ℤ → Prop
  | none, index => index = 0
  | some t, index =>
    if t.stops.length = 0 then index = 0 ∨ index = -1
    else 0 ≤ index ∧ index < (t.stops.length : ℤ)

/-- The session-state form of the cursor invariant. -/
def SessionInv (s : Session) : Prop :=
  cursorInv s.currentTour s.currentStopIndex

/-- The spec-side pairwise distance sum: distance between each pair of
consecutive stops, 0 for an empty or single-stop list. -/
noncomputable def pairwiseDistanceSum : List TourStop → ℝ
  | [] => 0
  | [_] => 0
  | prevStop :: stop :: rest =>
    calculateDistance prevStop.poi.location.latitude prevStop.poi.location.longitude
        stop.poi.location.latitude stop.poi.location.longitude +
      pairwiseDistanceSum (stop :: rest)

/-- Concrete position used by witnesses. -/
noncomputable def samplePosition : GeoPoint :=
  { latitude := 37, longitude := -122, timestamp := 0 }

/-- Concrete attraction used by witnesses. -/
noncomputable def sampleAttraction : Attraction :=
  { id := "a1"
    name := "Old Museum"
    coordinates := { latitude := 37, longitude := -122 }
    additional_info_description := none }

/-- Second concrete attraction used by witnesses. -/
noncomputable def sampleAttraction2 : Attraction :=
  { id := "a2"
    name := "City Hall"
    coordinates := { latitude := 38, longitude := -122 }
    additional_info_description := some "historic seat" }

/-- A successful one-attraction startTour call from the initial state. -/
noncomputable def oneStopSession : Session :=
  startTour initialSession (.ok samplePosition)
    (fun _ => .ok [sampleAttraction])
    (fun _ => .ok [])
    (fun _ => .ok none)

/-- Fallback tour value used to project the tour out of an Option. -/
noncomputable def emptyTour : Tour :=
  { stops := [], totalDistance := 0, estimatedDuration := 0 }

/-- The tour installed by the successful one-attraction call. -/
noncomputable def oneStopTour : Tour :=
  oneStopSession.currentTour.getD emptyTour

/-- A startTour call from the initial state whose discovery succeeds with
an empty attraction list. -/
noncomputable def emptyDiscoverySession : Session :=
  startTour initialSession (.ok samplePosition)
    (fun _ => .ok [])
    (fun _ => .ok [])
    (fun _ => .ok none)

/-- A startTour call from the initial state in which discovery returns
one attraction and the historical-photo fetch for it rejects. -/
noncomputable def photoFailSession : Session :=
  startTour initialSession (.ok samplePosition)
    (fun _ => .ok [sampleAttraction])
    (fun _ => .error "Network request failed")
    (fun _ => .ok (some "Nice place"))

lemma aux_getD_of_drop {α : Type _} (d : α) :
    ∀ (l : List α) (j : Nat) (x : α) (xs : List α), l.drop j = x :: xs → l.getD j d = x
  | [], j, x, xs, h => by simp at h
  | a :: l, 0, x, xs, h => by
    simp only [List.drop_zero] at h
    cases h
    rfl
  | a :: l, j + 1, x, xs, h => by
    simp only [List.drop_succ_cons] at h
    simpa using aux_getD_of_drop d l j x xs h

lemma aux_drop_succ {α : Type _} (l : List α) (j : Nat) (x : α) (xs : List α)
    (h : l.drop j = x :: xs) : l.drop (j + 1) = xs := by
  have h2 : l.drop (j + 1) = (l.drop j).drop 1 := by rw [List.drop_drop]
  rw [h2, h]
  rfl

lemma aux_getElem_isSome {α : Type _} :
    ∀ (l : List α) (i : Nat), i < l.length → l[i]?.isSome = true
  | [], i, h => by simp at h
  | a :: l, 0, _ => by simp
  | a :: l, i + 1, h => by
    simpa using aux_getElem_isSome l i (by simpa using h)

lemma aux_getD_map {α β : Type _} (f : α → β) (d : β) (d0 : α) :
    ∀ (l : List α) (i : Nat), i < l.length → (l.map f).getD i d = f (l.getD i d0)
  | [], i, h => by simp at h
  | a :: l, 0, _ => by simp
  | a :: l, i + 1, h => by
    simpa using aux_getD_map f d d0 l i (by simpa using h)

lemma aux_getD_take {α : Type _} (d : α) :
    ∀ (l : List α) (n i : Nat), i < n → (l.take n).getD i d = l.getD i d
  | [], n, i, _ => by simp
  | a :: l, 0, i, h => by omega
  | a :: l, n + 1, 0, _ => by simp
  | a :: l, n + 1, i + 1, h => by
    simpa using aux_getD_take d l n i (by omega)

lemma goToNextStop_currentTour (s : Session) :
    (goToNextStop s).currentTour = s.currentTour := by
  cases h : s.currentTour <;> simp [goToNextStop, h]

lemma collectStops_all_ok (photosOf : Attraction → Except String (List ArchivalPhoto))
    (aiOf : Attraction → Except String (Option String))
    (phF : Attraction → List ArchivalPhoto) (aiF : Attraction → Option String) :
    ∀ l : List Attraction,
      (∀ a ∈ l, photosOf a = .ok (phF a)) → (∀ a ∈ l, aiOf a = .ok (aiF a)) →
      collectStops (l.map (fun a => enrichStop a (photosOf a) (aiOf a))) =
        .ok (l.map (fun a => enrichedStop a (phF a) (aiF a)))
  | [], _, _ => rfl
  | a :: l, hph, hai => by
    have hrest := collectStops_all_ok photosOf aiOf phF aiF l
      (fun b hb => hph b (List.mem_cons_of_mem a hb))
      (fun b hb => hai b (List.mem_cons_of_mem a hb))
    have hpa := hph a (List.mem_cons_self a l)
    have haa := hai a (List.mem_cons_self a l)
    have hone : enrichStop a (photosOf a) (aiOf a) = .ok (enrichedStop a (phF a) (aiF a)) := by
      rw [hpa, haa]
      rfl
    simp only [List.map_cons, collectStops]
    rw [hone, hrest]
    rfl

lemma collectStops_ok_elem :
    ∀ (rs : List (Except String TourStop)) (res : List TourStop),
      collectStops rs = .ok res → ∀ r ∈ rs, ∃ v, r = .ok v
  | [], _, _, r, hr => by simp at hr
  | r0 :: rest, res, h, r, hr => by
    simp only [collectStops] at h
    rcases hr0 : r0 with e | v0
    · rw [hr0] at h
      have h2 : (Except.error e : Except String (List TourStop)) = .ok res := h
      cases h2
    · rcases hrest : collectStops rest with e | vs
      · rw [hr0, hrest] at h
        have h2 : (Except.error e : Except String (List TourStop)) = .ok res := h
        cases h2
      · rcases List.mem_cons.mp hr with hr1 | hr1
        · exact ⟨v0, by rw [hr1, hr0]⟩
        · exact collectStops_ok_elem rest vs hrest r hr1

lemma foldl_distStep_chain (stops : List TourStop) :
    ∀ (l : List TourStop) (j : Nat) (prevStop : TourStop) (acc : ℝ),
      1 ≤ j → stops.getD (j - 1) default = prevStop → stops.drop j = l →
      (l.foldl (distStep stops) (acc, j)).1 = acc + pairwiseDistanceSum (prevStop :: l)
  | [], j, prevStop, acc, _, _, _ => by simp [pairwiseDistanceSum]
  | x :: xs, j, prevStop, acc, hj, hprev, hdrop => by
    have hx : stops.getD j default = x := aux_getD_of_drop default stops j x xs hdrop
    have hdrop2 : stops.drop (j + 1) = xs := aux_drop_succ stops j x xs hdrop
    have hstep : distStep stops (acc, j) x =
        (acc + calculateDistance prevStop.poi.location.latitude
            prevStop.poi.location.longitude x.poi.location.latitude
            x.poi.location.longitude, j + 1) := by
      simp only [distStep, hprev]
      have hj0 : j ≠ 0 := by omega
      simp [hj0, hprev]
    have hrec := foldl_distStep_chain stops xs (j + 1) x
      (acc + calculateDistance prevStop.poi.location.latitude
        prevStop.poi.location.longitude x.poi.location.latitude
        x.poi.location.longitude)
      (by omega) (by simpa using hx) hdrop2
    calc ((x :: xs).foldl (distStep stops) (acc, j)).1
        = (xs.foldl (distStep stops) (distStep stops (acc, j) x)).1 := by
          simp [List.foldl_cons]
      _ = acc + pairwiseDistanceSum (prevStop :: x :: xs) := by
          rw [hstep, hrec]
          simp [pairwiseDistanceSum]
          ring

lemma totalDistance_eq_pairwise :
    ∀ stops : List TourStop, totalDistance stops = pairwiseDistanceSum stops
  | [] => by simp [totalDistance, pairwiseDistanceSum]
  | s0 :: rest => by
    have h := foldl_distStep_chain (s0 :: rest) rest 1 s0 0 (le_refl 1) rfl rfl
    have hstep0 : distStep (s0 :: rest) ((0 : ℝ), (0 : Nat)) s0 = ((0 : ℝ), (1 : Nat)) := by
      simp [distStep]
    simp only [totalDistance, List.foldl_cons, hstep0]
    rw [h]
    simp

lemma startTour_error_frame (s : Session) (position : Except String GeoPoint)
    (fetchNearby : GeoPoint → Except String (List Attraction))
    (photosOf : Attraction → Except String (List ArchivalPhoto))
    (aiOf : Attraction → Except String (Option String)) (e : String)
    (h : (startTour s position fetchNearby photosOf aiOf).error = some e) :
    (startTour s position fetchNearby photosOf aiOf).currentTour = s.currentTour ∧
    (startTour s position fetchNearby photosOf aiOf).currentStopIndex = s.currentStopIndex := by
  rcases position with e0 | loc
  · exact ⟨rfl, rfl⟩
  · rcases hf : fetchNearby loc with e1 | atts
    · constructor <;> simp [startTour, hf]
    · rcases hb : buildStops atts photosOf aiOf with e2 | stops
      · constructor <;> simp [startTour, hf, hb]
      · simp [startTour, hf, hb] at h

lemma startTour_success (s : Session) (position : Except String GeoPoint)
    (fetchNearby : GeoPoint → Except String (List Attraction))
    (photosOf : Attraction → Except String (List ArchivalPhoto))
    (aiOf : Attraction → Except String (Option String))
    (loc : GeoPoint) (attractions : List Attraction) (stops : List TourStop)
    (hpos : position = .ok loc) (hfetch : fetchNearby loc = .ok attractions)
    (hbuild : buildStops attractions photosOf aiOf = .ok stops) :
    (startTour s position fetchNearby photosOf aiOf).error = none ∧
    (startTour s position fetchNearby photosOf aiOf).currentStopIndex = 0 ∧
    (startTour s position fetchNearby photosOf aiOf).currentTour =
      some { stops := stops, totalDistance := totalDistance stops,
             estimatedDuration :=
               (totalDistance stops / 5000) * 60 + ((stops.length : ℝ) * 20) } := by
  subst hpos
  refine ⟨?_, ?_, ?_⟩ <;> simp [startTour, hfetch, hbuild]

lemma startTour_outcome (s : Session) (position : Except String GeoPoint)
    (fetchNearby : GeoPoint → Except String (List Attraction))
    (photosOf : Attraction → Except String (List ArchivalPhoto))
    (aiOf : Attraction → Except String (Option String)) :
    ((startTour s position fetchNearby photosOf aiOf).currentTour = s.currentTour ∧
      (startTour s position fetchNearby photosOf aiOf).currentStopIndex =
        s.currentStopIndex) ∨
    (∃ t, (startTour s position fetchNearby photosOf aiOf).currentTour = some t ∧
      (startTour s position fetchNearby photosOf aiOf).currentStopIndex = 0) := by
  rcases position with e0 | loc
  · exact Or.inl ⟨rfl, rfl⟩
  · rcases hf : fetchNearby loc with e1 | atts
    · exact Or.inl (by constructor <;> simp [startTour, hf])
    · rcases hb : buildStops atts photosOf aiOf with e2 | stops
      · exact Or.inl (by constructor <;> simp [startTour, hf, hb])
      · refine Or.inr ⟨Tour.mk stops (totalDistance stops)
            ((totalDistance stops / 5000) * 60 + ((stops.length : ℝ) * 20)), ?_, ?_⟩ <;>
          simp [startTour, hf, hb]

lemma sessionInv_of_reachable {s : Session} (h : Reachable s) : SessionInv s := by
  induction h with
  | init => simp [SessionInv, cursorInv, initialSession]
  | tour s position fetchNearby photosOf aiOf hr ih =>
    rcases startTour_outcome s position fetchNearby photosOf aiOf with ⟨h1, h2⟩ | ⟨t, h1, h2⟩
    · unfold SessionInv
      rw [h1, h2]
      exact ih
    · unfold SessionInv
      rw [h1, h2]
      simp only [cursorInv]
      by_cases hlen : t.stops.length = 0
      · simp [hlen]
      · rw [if_neg hlen]
        refine ⟨le_refl 0, ?_⟩
        omega
  | next s hr ih =>
    rcases hct : s.currentTour with _ | t
    · simpa [goToNextStop, hct] using ih
    · have h1 : (goToNextStop s).currentTour = some t := by
        rw [goToNextStop_currentTour, hct]
      have h2 : (goToNextStop s).currentStopIndex =
          min (s.currentStopIndex + 1) ((t.stops.length : ℤ) - 1) := by
        simp [goToNextStop, hct]
      unfold SessionInv at ih ⊢
      rw [h1, h2]
      rw [hct] at ih
      simp only [cursorInv] at ih ⊢
      by_cases hlen : t.stops.length = 0
      · rw [if_pos hlen] at ih ⊢
        omega
      · rw [if_neg hlen] at ih ⊢
        omega

lemma advance_iterate (t : Tour) :
    ∀ (k : Nat) (s : Session), s.currentTour = some t →
      s.currentStopIndex ≤ (t.stops.length : ℤ) - 1 →
      (goToNextStop^[k] s).currentStopIndex =
        min (s.currentStopIndex + k) ((t.stops.length : ℤ) - 1)
  | 0, s, _, hle => by
    simp only [Function.iterate_zero, id_eq]
    push_cast
    omega
  | k + 1, s, ht, hle => by
    rw [Function.iterate_succ_apply]
    have ht2 : (goToNextStop s).currentTour = some t := by
      rw [goToNextStop_currentTour, ht]
    have hidx : (goToNextStop s).currentStopIndex =
        min (s.currentStopIndex + 1) ((t.stops.length : ℤ) - 1) := by
      simp [goToNextStop, ht]
    have hle2 : (goToNextStop s).currentStopIndex ≤ (t.stops.length : ℤ) - 1 := by
      rw [hidx]
      omega
    rw [advance_iterate t k (goToNextStop s) ht2 hle2, hidx]
    push_cast
    omega

/-- C1: when the position read succeeds, discovery returns the candidate
list, and every per-stop fetch succeeds, startTour installs a tour whose
stops list has length min(n, 5) and whose i-th stop is the enrichment of
the i-th candidate, in discovery order.  The embedding collects the
enrichment results indexed by input position, exactly as Promise.all over
the mapped candidate list does, so enrichment completion timing cannot
influence the result. -/
theorem c1_startTour_order_and_length
    (s : Session) (position : Except String GeoPoint)
    (fetchNearby : GeoPoint → Except String (List Attraction))
    (photosOf : Attraction → Except String (List ArchivalPhoto))
    (aiOf : Attraction → Except String (Option String))
    (loc : GeoPoint) (attractions : List Attraction)
    (phF : Attraction → List ArchivalPhoto) (aiF : Attraction → Option String)
    (hpos : position = .ok loc)
    (hfetch : fetchNearby loc = .ok attractions)
    (hph : ∀ a ∈ attractions.take 5, photosOf a = .ok (phF a))
    (hai : ∀ a ∈ attractions.take 5, aiOf a = .ok (aiF a)) :
    ∃ t : Tour,
      (startTour s position fetchNearby photosOf aiOf).currentTour = some t ∧
      t.stops.length = min attractions.length 5 ∧
      ∀ i, i < t.stops.length →
        t.stops.getD i default =
          enrichedStop (attractions.getD i default)
            (phF (attractions.getD i default)) (aiF (attractions.getD i default)) := by
  have hbuild : buildStops attractions photosOf aiOf =
      .ok ((attractions.take 5).map (fun a => enrichedStop a (phF a) (aiF a))) := by
    unfold buildStops
    exact collectStops_all_ok photosOf aiOf phF aiF (attractions.take 5) hph hai
  obtain ⟨herr, hidx, htour⟩ :=
    startTour_success s position fetchNearby photosOf aiOf loc attractions _
      hpos hfetch hbuild
  refine ⟨_, htour, ?_, ?_⟩
  · simp only [List.length_map, List.length_take]
    omega
  · intro i hi
    have hlen : i < (attractions.take 5).length := by
      simpa using hi
    have hlen5 : i < 5 := by
      simp only [List.length_take] at hlen
      omega
    show ((attractions.take 5).map
        (fun a => enrichedStop a (phF a) (aiF a))).getD i default = _
    rw [aux_getD_map (fun a => enrichedStop a (phF a) (aiF a)) default default
        (attractions.take 5) i hlen]
    rw [aux_getD_take default attractions 5 i hlen5]

/-- C1 witness: a concrete two-candidate run with trivially succeeding
fetch oracles. -/
theorem c1_witness :
    ∃ t : Tour,
      (startTour initialSession (.ok samplePosition)
          (fun _ => .ok [sampleAttraction, sampleAttraction2])
          (fun _ => .ok []) (fun _ => .ok none)).currentTour = some t ∧
      t.stops.length = min [sampleAttraction, sampleAttraction2].length 5 ∧
      ∀ i, i < t.stops.length →
        t.stops.getD i default =
          enrichedStop ([sampleAttraction, sampleAttraction2].getD i default) [] none :=
  c1_startTour_order_and_length initialSession (.ok samplePosition)
    (fun _ => .ok [sampleAttraction, sampleAttraction2]) (fun _ => .ok [])
    (fun _ => .ok none) samplePosition [sampleAttraction, sampleAttraction2]
    (fun _ => []) (fun _ => none) rfl rfl (fun _ _ => rfl) (fun _ _ => rfl)

/-- C2 counterexample: in a one-candidate run whose archival-photo fetch
rejects, startTour does not return a tour at all: it fails as a whole,
leaving no current tour and storing the error, contradicting the claim
that the stop would be kept with an empty photo list. -/
theorem c2_counterexample :
    photoFailSession.currentTour = none ∧
    photoFailSession.error = some "Network request failed" :=
  ⟨rfl, rfl⟩

/-- C2 amended: only missing narrative content is tolerated, not failed
requests.  A successful narrative response with empty or missing text
yields the fallback string, but a rejected photo request or narrative
request makes that enrichment reject, and a rejected photo request for
any of the first five candidates makes startTour fail as a whole, setting
the error and leaving the previous tour and cursor index unchanged. -/
theorem c2_amended
    (a : Attraction) (ph : List ArchivalPhoto) (e2 : String)
    (ai : Except String (Option String))
    (s : Session) (position : Except String GeoPoint)
    (fetchNearby : GeoPoint → Except String (List Attraction))
    (photosOf : Attraction → Except String (List ArchivalPhoto))
    (aiOf : Attraction → Except String (Option String))
    (loc : GeoPoint) (attractions : List Attraction) (e : String) (b : Attraction)
    (hpos : position = .ok loc)
    (hfetch : fetchNearby loc = .ok attractions)
    (hb : b ∈ attractions.take 5)
    (hfail : photosOf b = .error e) :
    enrichStop a (.ok ph) (.ok none) = .ok (enrichedStop a ph none) ∧
    narrativeFrom none = fallbackDescription ∧
    enrichStop a (.ok ph) (.ok (some "")) = .ok (enrichedStop a ph (some "")) ∧
    narrativeFrom (some "") = fallbackDescription ∧
    enrichStop a (.error e2) ai = .error e2 ∧
    enrichStop a (.ok ph) (.error e2) = .error e2 ∧
    (startTour s position fetchNearby photosOf aiOf).error.isSome = true ∧
    (startTour s position fetchNearby photosOf aiOf).currentTour = s.currentTour ∧
    (startTour s position fetchNearby photosOf aiOf).currentStopIndex =
      s.currentStopIndex := by
  have hnotok : ∀ stops, buildStops attractions photosOf aiOf ≠ .ok stops := by
    intro stops hok
    have hok2 : collectStops ((attractions.take 5).map
        (fun x => enrichStop x (photosOf x) (aiOf x))) = .ok stops := hok
    obtain ⟨v, hv⟩ := collectStops_ok_elem _ _ hok2
      (enrichStop b (photosOf b) (aiOf b))
      (List.mem_map_of_mem _ hb)
    rw [hfail] at hv
    have h2 : (Except.error e : Except String TourStop) = .ok v := hv
    cases h2
  rcases hbuild : buildStops attractions photosOf aiOf with e3 | stops
  · subst hpos
    refine ⟨rfl, rfl, rfl, rfl, rfl, rfl, ?_, ?_, ?_⟩ <;>
      simp [startTour, hfetch, hbuild]
  · exact absurd hbuild (hnotok stops)

/-- C2 witness: concrete instance of the amended theorem, with a
one-candidate list whose photo fetch rejects. -/
theorem c2_witness :
    enrichStop sampleAttraction (.ok []) (.ok none) =
      .ok (enrichedStop sampleAttraction [] none) ∧
    narrativeFrom none = fallbackDescription ∧
    enrichStop sampleAttraction (.ok []) (.ok (some "")) =
      .ok (enrichedStop sampleAttraction [] (some "")) ∧
    narrativeFrom (some "") = fallbackDescription ∧
    enrichStop sampleAttraction (.error "boom") (.ok (some "Nice place")) =
      .error "boom" ∧
    enrichStop sampleAttraction (.ok []) (.error "boom") = .error "boom" ∧
    (startTour initialSession (.ok samplePosition)
        (fun _ => .ok [sampleAttraction])
        (fun _ => .error "Network request failed")
        (fun _ => .ok (some "Nice place"))).error.isSome = true ∧
    (startTour initialSession (.ok samplePosition)
        (fun _ => .ok [sampleAttraction])
        (fun _ => .error "Network request failed")
        (fun _ => .ok (some "Nice place"))).currentTour =
      initialSession.currentTour ∧
    (startTour initialSession (.ok samplePosition)
        (fun _ => .ok [sampleAttraction])
        (fun _ => .error "Network request failed")
        (fun _ => .ok (some "Nice place"))).currentStopIndex =
      initialSession.currentStopIndex :=
  c2_amended sampleAttraction [] "boom" (.ok (some "Nice place"))
    initialSession (.ok samplePosition) (fun _ => .ok [sampleAttraction])
    (fun _ => .error "Network request failed") (fun _ => .ok (some "Nice place"))
    samplePosition [sampleAttraction] "Network request failed" sampleAttraction
    rfl rfl (by simp) rfl

/-- C3 counterexample: a run whose discovery succeeds with an empty list
does not fail; it installs a tour with zero stops at cursor index 0 and
leaves the error empty, contradicting the claimed NoAttractionsFound
failure. -/
theorem c3_counterexample :
    emptyDiscoverySession.error = none ∧
    emptyDiscoverySession.currentTour.isSome = true ∧
    (emptyDiscoverySession.currentTour.getD emptyTour).stops = [] ∧
    emptyDiscoverySession.currentStopIndex = 0 :=
  ⟨rfl, rfl, rfl, rfl⟩

/-- C3 amended: when discovery succeeds with an empty attraction list,
startTour succeeds and installs a tour with an empty stops list, resetting
the cursor index to 0; no NoAttractionsFound failure exists in the
code. -/
theorem c3_amended
    (s : Session) (position : Except String GeoPoint)
    (fetchNearby : GeoPoint → Except String (List Attraction))
    (photosOf : Attraction → Except String (List ArchivalPhoto))
    (aiOf : Attraction → Except String (Option String)) (loc : GeoPoint)
    (hpos : position = .ok loc)
    (hfetch : fetchNearby loc = .ok ([] : List Attraction)) :
    (startTour s position fetchNearby photosOf aiOf).error = none ∧
    (startTour s position fetchNearby photosOf aiOf).currentTour.map Tour.stops =
      some [] ∧
    (startTour s position fetchNearby photosOf aiOf).currentStopIndex = 0 := by
  have hbuild : buildStops [] photosOf aiOf = .ok [] := rfl
  obtain ⟨h1, h2, h3⟩ :=
    startTour_success s position fetchNearby photosOf aiOf loc [] [] hpos hfetch hbuild
  refine ⟨h1, ?_, h2⟩
  rw [h3]
  rfl

/-- C3 witness: concrete empty-discovery run of the amended theorem. -/
theorem c3_witness :
    (startTour initialSession (.ok samplePosition) (fun _ => .ok [])
        (fun _ => .ok []) (fun _ => .ok none)).error = none ∧
    (startTour initialSession (.ok samplePosition) (fun _ => .ok [])
        (fun _ => .ok []) (fun _ => .ok none)).currentTour.map Tour.stops =
      some [] ∧
    (startTour initialSession (.ok samplePosition) (fun _ => .ok [])
        (fun _ => .ok []) (fun _ => .ok none)).currentStopIndex = 0 :=
  c3_amended initialSession (.ok samplePosition) (fun _ => .ok [])
    (fun _ => .ok []) (fun _ => .ok none) samplePosition rfl rfl

/-- C4: a startTour call that fails, which in the code means the catch
block stored an error message, leaves the previously held tour and the
cursor index exactly as they were: only fully successful assembly writes
them. -/
theorem c4_failure_frame
    (s : Session) (position : Except String GeoPoint)
    (fetchNearby : GeoPoint → Except String (List Attraction))
    (photosOf : Attraction → Except String (List ArchivalPhoto))
    (aiOf : Attraction → Except String (Option String)) (e : String)
    (h : (startTour s position fetchNearby photosOf aiOf).error = some e) :
    (startTour s position fetchNearby photosOf aiOf).currentTour = s.currentTour ∧
    (startTour s position fetchNearby photosOf aiOf).currentStopIndex =
      s.currentStopIndex :=
  startTour_error_frame s position fetchNearby photosOf aiOf e h

/-- C4 witness: a concrete position failure. -/
theorem c4_witness :
    (startTour initialSession (.error "An error occurred") (fun _ => .ok [])
        (fun _ => .ok []) (fun _ => .ok none)).currentTour =
      initialSession.currentTour ∧
    (startTour initialSession (.error "An error occurred") (fun _ => .ok [])
        (fun _ => .ok []) (fun _ => .ok none)).currentStopIndex =
      initialSession.currentStopIndex :=
  c4_failure_frame initialSession (.error "An error occurred") (fun _ => .ok [])
    (fun _ => .ok []) (fun _ => .ok none) "An error occurred" rfl

/-- C5 counterexample: the empty-discovery run produces a reachable state
that holds a tour, yet its cursor index 0 is not below the stop count 0,
and getCurrentStop addresses no existing stop. -/
theorem c5_counterexample :
    Reachable emptyDiscoverySession ∧
    emptyDiscoverySession.currentTour.isSome = true ∧
    getCurrentStop emptyDiscoverySession = none ∧
    ¬ (emptyDiscoverySession.currentStopIndex <
        ((emptyDiscoverySession.currentTour.getD emptyTour).stops.length : ℤ)) := by
  refine ⟨?_, rfl, rfl, ?_⟩
  · exact Reachable.tour initialSession (.ok samplePosition) (fun _ => .ok [])
      (fun _ => .ok []) (fun _ => .ok none) Reachable.init
  · intro hcon
    exact absurd (show (0 : ℤ) < 0 from hcon) (by norm_num)

/-- C5 amended: in every reachable session state whose tour has at least
one stop, the cursor index lies in [0, number of stops), and
getCurrentStop addresses an existing stop.  The unrestricted claim fails
only on the zero-stop tours installed by empty discovery. -/
theorem c5_cursor_in_bounds
    (s : Session) (h : Reachable s) (t : Tour)
    (ht : s.currentTour = some t) (hne : t.stops.length ≠ 0) :
    0 ≤ s.currentStopIndex ∧ s.currentStopIndex < (t.stops.length : ℤ) ∧
    (getCurrentStop s).isSome = true := by
  have inv := sessionInv_of_reachable h
  unfold SessionInv at inv
  rw [ht] at inv
  simp only [cursorInv] at inv
  rw [if_neg hne] at inv
  obtain ⟨h0, hlt⟩ := inv
  refine ⟨h0, hlt, ?_⟩
  have hnneg : ¬ (s.currentStopIndex < 0) := not_lt.mpr h0
  have hlt2 : s.currentStopIndex.toNat < t.stops.length := by omega
  simp only [getCurrentStop, ht]
  rw [if_neg hnneg]
  exact aux_getElem_isSome t.stops s.currentStopIndex.toNat hlt2

/-- C5 witness: the one-stop session is reachable and its cursor is in
bounds. -/
theorem c5_witness :
    0 ≤ oneStopSession.currentStopIndex ∧
    oneStopSession.currentStopIndex < (oneStopTour.stops.length : ℤ) ∧
    (getCurrentStop oneStopSession).isSome = true :=
  c5_cursor_in_bounds oneStopSession
    (Reachable.tour initialSession (.ok samplePosition)
      (fun _ => .ok [sampleAttraction]) (fun _ => .ok []) (fun _ => .ok none)
      Reachable.init)
    oneStopTour rfl (Nat.succ_ne_zero 0)

/-- C6: with a tour of at least one stop present, one goToNextStop call
sets the index to min(index + 1, stops - 1); at the last stop it is a
no-op, and stops + 3 calls from index 0 end at index stops - 1. -/
theorem c6_advance_min (s : Session) (t : Tour)
    (ht : s.currentTour = some t) (hlen : 1 ≤ t.stops.length) :
    (goToNextStop s).currentStopIndex =
      min (s.currentStopIndex + 1) ((t.stops.length : ℤ) - 1) ∧
    (s.currentStopIndex = (t.stops.length : ℤ) - 1 →
      (goToNextStop s).currentStopIndex = s.currentStopIndex) ∧
    (s.currentStopIndex = 0 →
      (goToNextStop^[t.stops.length + 3] s).currentStopIndex =
        (t.stops.length : ℤ) - 1) := by
  have h1 : (goToNextStop s).currentStopIndex =
      min (s.currentStopIndex + 1) ((t.stops.length : ℤ) - 1) := by
    simp [goToNextStop, ht]
  refine ⟨h1, ?_, ?_⟩
  · intro hlast
    rw [h1, hlast]
    omega
  · intro h0
    have hiter := advance_iterate t (t.stops.length + 3) s ht (by omega)
    rw [hiter, h0]
    push_cast
    omega

/-- C6 witness: the one-stop session. -/
theorem c6_witness :
    (goToNextStop oneStopSession).currentStopIndex =
      min (oneStopSession.currentStopIndex + 1) ((oneStopTour.stops.length : ℤ) - 1) ∧
    (oneStopSession.currentStopIndex = (oneStopTour.stops.length : ℤ) - 1 →
      (goToNextStop oneStopSession).currentStopIndex =
        oneStopSession.currentStopIndex) ∧
    (oneStopSession.currentStopIndex = 0 →
      (goToNextStop^[oneStopTour.stops.length + 3] oneStopSession).currentStopIndex =
        (oneStopTour.stops.length : ℤ) - 1) :=
  c6_advance_min oneStopSession oneStopTour rfl (Nat.le_refl 1)

/-- C7: every tour installed by a successful startTour call carries
estimatedDuration = (totalDistance / 5000) * 60 + 20 * stopCount, and a
one-stop zero-distance tour has estimatedDuration exactly 20. -/
theorem c7_duration_formula
    (s : Session) (position : Except String GeoPoint)
    (fetchNearby : GeoPoint → Except String (List Attraction))
    (photosOf : Attraction → Except String (List ArchivalPhoto))
    (aiOf : Attraction → Except String (Option String)) (t : Tour)
    (herr : (startTour s position fetchNearby photosOf aiOf).error = none)
    (htour : (startTour s position fetchNearby photosOf aiOf).currentTour = some t) :
    t.estimatedDuration = (t.totalDistance / 5000) * 60 + 20 * (t.stops.length : ℝ) ∧
    (t.stops.length = 1 → t.totalDistance = 0 → t.estimatedDuration = 20) := by
  rcases position with e0 | loc
  · exact absurd herr (by simp [startTour])
  · rcases hf : fetchNearby loc with e1 | atts
    · simp [startTour, hf] at herr
    · rcases hb : buildStops atts photosOf aiOf with e2 | stops
      · simp [startTour, hf, hb] at herr
      · simp only [startTour, hf, hb] at htour
        have ht2 := Option.some.inj htour
        subst ht2
        constructor
        · show (totalDistance stops / 5000) * 60 + ((stops.length : ℝ) * 20) =
            (totalDistance stops / 5000) * 60 + 20 * (stops.length : ℝ)
          ring
        · intro h1 h2
          have h2b : totalDistance stops = 0 := h2
          show (totalDistance stops / 5000) * 60 + ((stops.length : ℝ) * 20) = 20
          rw [h2b, h1]
          norm_num

/-- C7 witness: the tour of the one-stop session. -/
theorem c7_witness :
    oneStopTour.estimatedDuration =
      (oneStopTour.totalDistance / 5000) * 60 + 20 * (oneStopTour.stops.length : ℝ) ∧
    (oneStopTour.stops.length = 1 → oneStopTour.totalDistance = 0 →
      oneStopTour.estimatedDuration = 20) :=
  c7_duration_formula initialSession (.ok samplePosition)
    (fun _ => .ok [sampleAttraction]) (fun _ => .ok []) (fun _ => .ok none)
    oneStopTour rfl rfl

/-- C8: every tour installed by a successful startTour call carries
totalDistance equal to the sum of the haversine distances between each
pair of consecutive stops, which is 0 for a single-stop tour. -/
theorem c8_total_distance_sum
    (s : Session) (position : Except String GeoPoint)
    (fetchNearby : GeoPoint → Except String (List Attraction))
    (photosOf : Attraction → Except String (List ArchivalPhoto))
    (aiOf : Attraction → Except String (Option String)) (t : Tour)
    (herr : (startTour s position fetchNearby photosOf aiOf).error = none)
    (htour : (startTour s position fetchNearby photosOf aiOf).currentTour = some t) :
    t.totalDistance = pairwiseDistanceSum t.stops ∧
    (t.stops.length = 1 → t.totalDistance = 0) := by
  rcases position with e0 | loc
  · exact absurd herr (by simp [startTour])
  · rcases hf : fetchNearby loc with e1 | atts
    · simp [startTour, hf] at herr
    · rcases hb : buildStops atts photosOf aiOf with e2 | stops
      · simp [startTour, hf, hb] at herr
      · simp only [startTour, hf, hb] at htour
        have ht2 := Option.some.inj htour
        subst ht2
        constructor
        · exact totalDistance_eq_pairwise stops
        · intro h1
          have h1b : stops.length = 1 := h1
          obtain ⟨x, hx⟩ := List.length_eq_one.mp h1b
          show totalDistance stops = 0
          rw [totalDistance_eq_pairwise stops, hx]
          rfl

/-- C8 witness: the tour of the one-stop session. -/
theorem c8_witness :
    oneStopTour.totalDistance = pairwiseDistanceSum oneStopTour.stops ∧
    (oneStopTour.stops.length = 1 → oneStopTour.totalDistance = 0) :=
  c8_total_distance_sum initialSession (.ok samplePosition)
    (fun _ => .ok [sampleAttraction]) (fun _ => .ok []) (fun _ => .ok none)
    oneStopTour rfl rfl

/-- C9 counterexample: calculateDistance is zero on the distinct
coordinate pairs (90, 0) and (90, 1), so zero distance does not imply
equal points. -/
theorem c9_counterexample :
    calculateDistance 90 0 90 1 = 0 ∧
    ¬ (((90 : ℝ), (0 : ℝ)) = ((90 : ℝ), (1 : ℝ))) := by
  constructor
  · simp only [calculateDistance]
    rw [show ((90 : ℝ) - 90) * Real.pi / 180 = 0 from by ring,
      show (90 : ℝ) * Real.pi / 180 = Real.pi / 2 from by ring]
    norm_num [atan2, Real.cos_pi_div_two, Real.arctan_zero]
  · intro hcon
    have h2 := congrArg Prod.snd hcon
    norm_num at h2

/-- C9 amended: calculateDistance is a pure total function, it is
symmetric in its two points, and it vanishes on equal points; but zero
distance does not imply point equality (see the counterexample at the
pole). -/
theorem c9_symmetric_and_zero_on_diagonal (lat1 lon1 lat2 lon2 p q : ℝ) :
    calculateDistance lat1 lon1 lat2 lon2 = calculateDistance lat2 lon2 lat1 lon1 ∧
    calculateDistance p q p q = 0 := by
  constructor
  · simp only [calculateDistance]
    rw [show (lat1 - lat2) * Real.pi / 180 / 2 =
        -((lat2 - lat1) * Real.pi / 180 / 2) from by ring,
      show (lon1 - lon2) * Real.pi / 180 / 2 =
        -((lon2 - lon1) * Real.pi / 180 / 2) from by ring]
    simp only [Real.sin_neg]
    ring_nf
  · simp only [calculateDistance]
    rw [show (p - p) * Real.pi / 180 = 0 from by ring,
      show (q - q) * Real.pi / 180 = 0 from by ring]
    norm_num [atan2, Real.arctan_zero]

/-- C10: calling goToNextStop when no tour exists is a silent no-op: the
whole session state is returned unchanged. -/
theorem c10_advance_no_tour_noop (s : Session) (h : s.currentTour = none) :
    goToNextStop s = s := by
  simp [goToNextStop, h]

/-- C10 witness: the initial session has no tour. -/
theorem c10_witness : goToNextStop initialSession = initialSession :=
  c10_advance_no_tour_noop initialSession rfl

end Roami
